import Mathlib

/-!
Shallow embedding of the repository's single source file,
`src/frontend/app/page.tsx` (a Next.js page component), together with a
simplified CSS paint-order semantics (CSS 2.2 Appendix E restricted to the
features this page uses) used to state and prove the rendering claims.
-/

namespace Autocut

/-- Props of a `next/image` invocation, as they appear in the JSX call:
`src`, `alt`, the boolean `fill` sizing instruction, the boolean `priority`
load hint, and the list of utility class tokens passed via `className`. -/
structure ImageProps where
  src : String
  alt : String
  fill : Bool
  priority : Bool
  className : List String
deriving DecidableEq, Repr

/-- A rendered DOM node: an element with a tag, its utility class tokens and
its children in document order; a `next/image` element; a text node; or the
opaque navigation-bar collaborator. -/
inductive Node where
  | el (tag : String) (classes : List String) (children : List Node)
  | img (props : ImageProps)
  | text (s : String)
  | navbar
deriving Repr

/-- The props of the single `Image` invocation in `Home`
(page.tsx lines 11-17). -/
def heroImageProps : ImageProps :=
  { src := "/bg.jpg"
    alt := "background"
    fill := true
    priority := true
    className := ["object-cover", "opacity-30", "blur-[2px]"] }

/-- The background image element of the hero (page.tsx lines 11-17). -/
def heroImage : Node := .img heroImageProps

/-- The radial-gradient overlay div (page.tsx line 18). -/
def gradientOverlay : Node :=
  .el "div"
    ["absolute", "inset-0", "bg-gradient-radial", "from-blue-900/20",
     "via-purple-900/10", "to-black", "mix-blend-overlay"] []

/-- The absolutely positioned wrapper holding the image and the gradient
(page.tsx lines 10-19). -/
def layerWrapper : Node :=
  .el "div" ["absolute", "inset-0", "-z-10"] [heroImage, gradientOverlay]

/-- The hero heading (page.tsx line 22). -/
def heroHeading : Node :=
  .el "h1" ["text-5xl", "font-weird", "text-white"] [.text "Start creating."]

/-- The hero subheading (page.tsx line 23). -/
def heroSub : Node :=
  .el "p" [] [.text "Transform Hours of Footage into Minutes of Magic."]

/-- The centered hero text block (page.tsx lines 21-24). -/
def heroTextBlock : Node :=
  .el "div" ["max-w-4xl", "flex", "flex-col", "items-center", "justify-center"]
    [heroHeading, heroSub]

/-- The hero section container (page.tsx lines 9-25). -/
def heroSection : Node :=
  .el "div"
    ["relative", "flex", "flex-col", "items-center", "justify-center",
     "h-screen", "w-full", "text-center", "px-4", "bg-foreground",
     "overflow-hidden"]
    [layerWrapper, heroTextBlock]

/-- First scroll block of promotional copy (page.tsx lines 28-37); multi-line
JSX text is normalized to single spaces, as JSX does. -/
def scrollBlockOne : Node :=
  .el "div" ["flex", "flex-col", "justify-center", "items-center", "mt-32", "gap-4"]
    [ .el "h1" ["font-serif", "text-7xl"]
        [.text "Create short videos from long ones in a single click"],
      .el "p" ["text-muted-foreground", "font-sans"]
        [ .text "A tool that can create short videos from long ones before you can say ",
          .el "span" ["font-weird"] [.text "Adabra Kadabra"] ] ]

/-- Second scroll block (page.tsx lines 38-46). -/
def scrollBlockTwo : Node :=
  .el "div" ["h-screen", "w-full", "max-w-5xl"]
    [ .el "h1" ["font-serif", "text-7xl"]
        [.text "Built to work the way humans do"],
      .el "p" ["text-muted-foreground", "font-sans"]
        [ .text "Autocut\x27s multi-pass system utilizes Whisper model and Diarization for ",
          .el "span" ["font-weird"] [.text "seamless"],
          .text " video editing." ] ]

/-- The container of the two scroll sections (page.tsx lines 27-47). -/
def scrollSections : Node :=
  .el "div"
    ["h-screen", "max-w-5xl", "flex", "flex-col", "items-center",
     "justify-start", "px-4", "text-center"]
    [scrollBlockOne, scrollBlockTwo]

/-- The `Home` page component (page.tsx lines 4-49). It takes no runtime
input; the `Unit` argument records that fact explicitly. -/
def Home (_ : Unit) : Node :=
  .el "div"
    ["flex", "min-h-screen", "flex-col", "items-center", "justify-center",
     "relative", "overflow-hidden"]
    [.navbar, heroSection, scrollSections]

/-- The one rendered tree. -/
def homeTree : Node := Home ()

/-! CSS token interpretation. The page styles via Tailwind utility tokens;
these functions read the tokens relevant to positioning, stacking,
opacity, blur and blending. -/

/-- Class tokens of a node (`next/image` receives them via `className`). -/
def classesOf : Node → List String
  | .el _ cs _ => cs
  | .img p => p.className
  | .text _ => []
  | .navbar => []

/-- Child list of a node. -/
def childrenOf : Node → List Node
  | .el _ _ ch => ch
  | _ => []

/-- Whether a node carries a given class token. -/
def hasClass (n : Node) (c : String) : Bool := (classesOf n).contains c

/-- Whether one character list begins with another. -/
def charsBeginWith : List Char → List Char → Bool
  | _, [] => true
  | [], _ :: _ => false
  | c :: cs, d :: ds => c == d && charsBeginWith cs ds

/-- Whether `s` begins with `pre` (structural version of
`String.startsWith`). -/
def strBegins (s pre : String) : Bool := charsBeginWith s.data pre.data

/-- Value of a non-empty all-digit character suffix, accumulator form. -/
def digitsValAux : List Char → Nat → Option Nat
  | [], acc => some acc
  | c :: cs, acc =>
    if c.isDigit then digitsValAux cs (acc * 10 + (c.toNat - 48)) else none

/-- Value of a non-empty all-digit character list. -/
def digitsVal : List Char → Option Nat
  | [] => none
  | c :: cs => digitsValAux (c :: cs) 0

/-- An `opacity-*` utility token. -/
def isOpacityTok (c : String) : Bool := strBegins c "opacity-"

/-- Opacity percentage named by a token, e.g. `opacity-30` means 30%. -/
def opacityPercentOfTok (c : String) : Option Nat :=
  if strBegins c "opacity-" then digitsVal (c.data.drop 8) else none

/-- Opacity percentage of a node, if one of its tokens sets one. -/
def opacityPercentOf (n : Node) : Option Nat :=
  (classesOf n).findSome? opacityPercentOfTok

/-- A blur filter utility token (`blur`, `blur-sm`, `blur-[2px]`, ...). -/
def isBlurTok (c : String) : Bool := c == "blur" || strBegins c "blur-"

/-- A `mix-blend-*` utility token. -/
def isBlendTok (c : String) : Bool := strBegins c "mix-blend-"

/-- A z-index utility token (`z-*` or negative `-z-*`). -/
def isZTok (c : String) : Bool := strBegins c "z-" || strBegins c "-z-"

/-- The z-index a node's tokens assign; the only z token on this page is
`-z-10`; every other node is at `z-index: auto`, keyed 0 for paint order. -/
def zVal (n : Node) : Int := if hasClass n "-z-10" then -10 else 0

/-- Whether a node is positioned: a `absolute`/`relative`/`fixed`/`sticky`
token, or a `next/image` with `fill`, which styles itself
`position: absolute; inset: 0`. -/
def isPositioned : Node → Bool
  | .img p =>
      p.fill || p.className.contains "absolute" || p.className.contains "fixed"
  | n =>
      hasClass n "absolute" || hasClass n "relative" || hasClass n "fixed" ||
      hasClass n "sticky"

/-- Whether a node's styles establish a stacking context: positioned with a
non-auto z-index, opacity below 1, a blur filter, a non-normal blend
mode, or the `isolate` token. -/
def createsStackingContext (n : Node) : Bool :=
  (isPositioned n && (classesOf n).any isZTok) ||
  (match opacityPercentOf n with
   | some k => decide (k < 100)
   | none => false) ||
  (classesOf n).any isBlurTok ||
  (classesOf n).any isBlendTok ||
  hasClass n "isolate"

/-! Paint order (CSS 2.2 Appendix E, restricted to the features on this
page). For a stacking-context root we paint: the root's own
background/content atom, then descendant stacking contexts with negative
z-index (ascending), then in-flow non-positioned content in document
order, then positioned descendants with z-index auto and stacking
contexts with z-index 0 or more (ascending, document order for ties).
A positioned element with z-index auto paints its own in-flow content as
one unit, but its positioned or stacking-context descendants are lifted
into the enclosing stacking context. -/

/-- Stable insertion of a keyed painted unit, by ascending z key. -/
def insertZ (x : Int × List Node) : List (Int × List Node) → List (Int × List Node)
  | [] => [x]
  | y :: ys => if x.1 ≤ y.1 then x :: y :: ys else y :: insertZ x ys

/-- Stable sort of keyed painted units by ascending z key. -/
def sortByZ : List (Int × List Node) → List (Int × List Node)
  | [] => []
  | x :: xs => insertZ x (sortByZ xs)

/-- Paint of a stacking-context root `c` with in-flow content `f` and lifted
keyed units `l`: root atom, then negative-z units ascending, then in-flow
content, then the remaining units ascending. -/
def expandCtx (c : Node) (f : List Node) (l : List (Int × List Node)) : List Node :=
  let negs := sortByZ (l.filter (fun p => decide (p.1 < 0)))
  let poss := sortByZ (l.filter (fun p => decide (0 ≤ p.1)))
  c :: ((negs.map Prod.snd).flatten ++ f ++ (poss.map Prod.snd).flatten)

mutual

/-- In-flow painted atoms of the subtree below `n` (excluding `n` itself),
paired with the units lifted out to the enclosing stacking context, each
keyed by its z-index. -/
def proc : Node → List Node × List (Int × List Node)
  | .el _ _ ch => procList ch
  | .img _ => ([], [])
  | .text _ => ([], [])
  | .navbar => ([], [])

/-- `proc` over a child list, in document order. -/
def procList : List Node → List Node × List (Int × List Node)
  | [] => ([], [])
  | c :: cs =>
    let r := proc c
    let rs := procList cs
    if createsStackingContext c then
      (rs.1, (zVal c, expandCtx c r.1 r.2) :: rs.2)
    else if isPositioned c then
      (rs.1, (zVal c, c :: r.1) :: (r.2 ++ rs.2))
    else
      (c :: (r.1 ++ rs.1), r.2 ++ rs.2)

end

/-- Global paint order of a rendered tree, bottom layer first, treating the
tree root as the root stacking context. -/
def paintOrder (n : Node) : List Node :=
  expandCtx n (proc n).1 (proc n).2

/-! Tree queries. -/

mutual

/-- All nodes of a tree, in document order. -/
def allNodes : Node → List Node
  | .el t cs ch => .el t cs ch :: allNodesList ch
  | n => [n]

/-- `allNodes` over a child list. -/
def allNodesList : List Node → List Node
  | [] => []
  | c :: cs => allNodes c ++ allNodesList cs

end

mutual

/-- Strict ancestors (outermost first) of the first node in document order
satisfying `p`, or `none` if no node satisfies it. -/
def pathTo (p : Node → Bool) : Node → Option (List Node)
  | .el t cs ch =>
    if p (.el t cs ch) then some []
    else (pathToList p ch).map (fun l => Node.el t cs ch :: l)
  | n => if p n then some [] else none

/-- `pathTo` over a child list: first child subtree containing a match. -/
def pathToList (p : Node → Bool) : List Node → Option (List Node)
  | [] => none
  | c :: cs =>
    match pathTo p c with
    | some l => some l
    | none => pathToList p cs

end

mutual

/-- All text content of a tree, in document order. -/
def textsOf : Node → List String
  | .el _ _ ch => textsOfList ch
  | .text s => [s]
  | _ => []

/-- `textsOf` over a child list. -/
def textsOfList : List Node → List String
  | [] => []
  | c :: cs => textsOf c ++ textsOfList cs

end

mutual

/-- The props of every image invocation in a tree, in document order. -/
def imagesOf : Node → List ImageProps
  | .el _ _ ch => imagesOfList ch
  | .img p => [p]
  | _ => []

/-- `imagesOf` over a child list. -/
def imagesOfList : List Node → List ImageProps
  | [] => []
  | c :: cs => imagesOf c ++ imagesOfList cs

end

/-- Whether a node is an image element. -/
def isImgNode : Node → Bool
  | .img _ => true
  | _ => false

/-- Whether a node is the radial-gradient overlay layer. -/
def isGradientNode (n : Node) : Bool := hasClass n "bg-gradient-radial"

/-- Whether a node carries the hero container's opaque background token. -/
def isHeroBgNode (n : Node) : Bool := hasClass n "bg-foreground"

/-- Whether a node is the hero heading element. -/
def isHeroHeadingNode (n : Node) : Bool := hasClass n "text-5xl"

/-- Text content of a text node. -/
def textOf : Node → Option String
  | .text s => some s
  | _ => none

/-- Whether a node is a text node with the given content. -/
def isTextNode (s : String) (n : Node) : Bool := textOf n == some s

/-- Paint position of the first atom satisfying `p` in the page's paint
order (the list's length if none does). -/
def paintIdx (p : Node → Bool) : Nat := (paintOrder homeTree).findIdx p

/-! Viewport sizing, clipping and centering interpretation of the layout
tokens the claims mention. -/

/-- Computed height in pixels assigned by the sizing tokens, for a viewport
`vh` pixels tall: `h-screen` means `100vh`. -/
def computedHeight (classes : List String) (vh : Nat) : Option Nat :=
  if classes.contains "h-screen" then some vh else none

/-- Computed width in pixels assigned by the sizing tokens, for a block whose
containing chain spans a viewport `vw` pixels wide: `w-full` means 100%. -/
def computedWidth (classes : List String) (vw : Nat) : Option Nat :=
  if classes.contains "w-full" then some vw else none

/-- Whether a node clips descendant overflow (`overflow-hidden`). -/
def clipsOverflow (n : Node) : Bool := hasClass n "overflow-hidden"

/-- Whether a node stretches over its positioned ancestor's whole box
(`absolute` + `inset-0`, or a `fill` image). -/
def fillsContainer : Node → Bool
  | .img p => p.fill
  | n => hasClass n "absolute" && hasClass n "inset-0"

/-- Whether a flex container centers its children on both axes. -/
def centersChildren (n : Node) : Bool :=
  hasClass n "flex" && hasClass n "items-center" && hasClass n "justify-center"

/-- Color family named after a token head, e.g.
`colorAfter "from-" "from-blue-900/20" = some "blue"`. -/
def colorAfter (pre c : String) : Option String :=
  if strBegins c pre then
    some (String.mk ((c.data.drop pre.data.length).takeWhile
      (fun ch => ch ≠ '-' && ch ≠ '/')))
  else none

/-- First color family among a node's tokens with the given head. -/
def gradientStop (pre : String) (n : Node) : Option String :=
  (classesOf n).findSome? (colorAfter pre)

/-- Cool color families of the utility palette. -/
def coolColorFamilies : List String :=
  ["blue", "indigo", "violet", "purple", "cyan", "sky", "teal"]

/-- Painted atoms of the page for a given image load state: a failed image
paints nothing (stays transparent); every other atom is unaffected. -/
def paintedWhen (loaded : Bool) : List Node :=
  (paintOrder homeTree).filter (fun n => loaded || !isImgNode n)

/-! Claim theorems. -/

/-- Claim C1: in the page's paint order the background image paints below
the radial-gradient overlay, which paints below the hero heading and
subheading text; the gradient carries a blend-mode token, its nearest
stacking-context ancestor is the `-z-10` wrapper (which isolates the
blend), the painted stack of that wrapper is exactly wrapper, image,
gradient — so the blend composites against the image below it — and no
page-background-carrying node lies inside that wrapper. -/
theorem c1_hero_stacking_order :
    paintIdx isImgNode < paintIdx isGradientNode ∧
    paintIdx isGradientNode < paintIdx isHeroHeadingNode ∧
    paintIdx isGradientNode <
      paintIdx (isTextNode "Transform Hours of Footage into Minutes of Magic.") ∧
    (classesOf gradientOverlay).any isBlendTok = true ∧
    createsStackingContext layerWrapper = true ∧
    (pathTo isGradientNode homeTree).bind
      (fun l => l.reverse.find? createsStackingContext) = some layerWrapper ∧
    paintOrder layerWrapper = [layerWrapper, heroImage, gradientOverlay] ∧
    (allNodes layerWrapper).all (fun n => !isHeroBgNode n) = true :=
  ⟨by decide, by decide, by decide, by decide, by decide, rfl, rfl, by decide⟩

/-- Claim C2: for every viewport size, the hero container's sizing tokens
give it exactly the viewport height (`h-screen`) and the full available
width (`w-full`), and its `overflow-hidden` token clips any content that
escapes its bounds. -/
theorem c2_hero_viewport_box (vw vh : Nat) :
    computedHeight (classesOf heroSection) vh = some vh ∧
    computedWidth (classesOf heroSection) vw = some vw ∧
    clipsOverflow heroSection = true :=
  ⟨rfl, rfl, rfl⟩

/-- Claim C3: the gradient overlay's only blend token is exactly
`mix-blend-overlay`; the gradient carries no blur token; across the whole
rendered tree the only node with a blur token is the image element (so
exactly one such node exists); and no ancestor of the gradient carries a
blur token. -/
theorem c3_blend_and_blur_placement :
    (classesOf gradientOverlay).filter isBlendTok = ["mix-blend-overlay"] ∧
    (classesOf gradientOverlay).any isBlurTok = false ∧
    (allNodes homeTree).all
      (fun n => !(classesOf n).any isBlurTok || isImgNode n) = true ∧
    ((allNodes homeTree).filter (fun n => (classesOf n).any isBlurTok)).length = 1 ∧
    (pathTo isGradientNode homeTree).map
      (fun anc => anc.all (fun a => !(classesOf a).any isBlurTok)) = some true :=
  ⟨rfl, by decide, by decide, by decide, by decide⟩

/-- Claim C4: the image element is styled with cover fit and the `fill`
sizing prop, an opacity strictly between 0% and 100%, and a blur token;
the gradient (and the wrapper holding both) spans the same full region,
is radial, starts from a cool color family and fades to black. -/
theorem c4_image_and_gradient_styling :
    hasClass heroImage "object-cover" = true ∧
    heroImageProps.fill = true ∧
    (∃ k, opacityPercentOf heroImage = some k ∧ 0 < k ∧ k < 100) ∧
    (classesOf heroImage).any isBlurTok = true ∧
    fillsContainer heroImage = true ∧
    fillsContainer gradientOverlay = true ∧
    fillsContainer layerWrapper = true ∧
    hasClass gradientOverlay "bg-gradient-radial" = true ∧
    (∃ c, gradientStop "from-" gradientOverlay = some c ∧ c ∈ coolColorFamilies) ∧
    gradientStop "to-" gradientOverlay = some "black" :=
  ⟨by decide, rfl, ⟨30, by decide, by decide, by decide⟩, by decide, rfl, by decide,
   by decide, by decide, ⟨"blue", by decide, by decide⟩, by decide⟩

/-- Claim C5: the hero text block sits in flex containers that center it on
both axes; its ancestors are exactly the page root, the hero section and
the text block (so neither the image nor the gradient is an ancestor, and
no ancestor or text-block node carries an opacity or blur token); and the
heading and subheading paint above both the image and the gradient. -/
theorem c5_text_centered_above_layers :
    centersChildren heroSection = true ∧
    centersChildren heroTextBlock = true ∧
    pathTo isHeroHeadingNode homeTree = some [homeTree, heroSection, heroTextBlock] ∧
    (allNodes heroTextBlock).all
      (fun n => !(classesOf n).any isOpacityTok && !(classesOf n).any isBlurTok) = true ∧
    (pathTo isHeroHeadingNode homeTree).map
      (fun anc => anc.all (fun a =>
        !(classesOf a).any isOpacityTok && !(classesOf a).any isBlurTok &&
        !isImgNode a && !isGradientNode a)) = some true ∧
    paintIdx isImgNode < paintIdx isHeroHeadingNode ∧
    paintIdx isGradientNode < paintIdx isHeroHeadingNode :=
  ⟨by decide, by decide, rfl, by decide, by decide, by decide, by decide⟩

/-- Claim C6: whatever the image load state, the painted output still holds
the gradient layer, the hero container's background-color layer, the hero
heading and subheading and both scroll sections' headings; below-text
ordering of the fallback layers is kept; and an image load failure removes
no non-image atom from the painted output. -/
theorem c6_graceful_degradation (loaded : Bool) :
    (paintedWhen loaded).any isGradientNode = true ∧
    (paintedWhen loaded).any isHeroBgNode = true ∧
    (paintedWhen loaded).any isHeroHeadingNode = true ∧
    (paintedWhen loaded).any
      (isTextNode "Transform Hours of Footage into Minutes of Magic.") = true ∧
    (paintedWhen loaded).any
      (isTextNode "Create short videos from long ones in a single click") = true ∧
    (paintedWhen loaded).any (isTextNode "Built to work the way humans do") = true ∧
    (paintedWhen loaded).countP (fun n => !isImgNode n) =
      (paintOrder homeTree).countP (fun n => !isImgNode n) ∧
    (paintedWhen loaded).findIdx isGradientNode <
      (paintedWhen loaded).findIdx isHeroHeadingNode := by
  cases loaded <;> exact
    ⟨by decide, by decide, by decide, by decide, by decide, by decide, by decide, by decide⟩

/-- Claim C7: `Home` takes no runtime input and renders the same tree on
every invocation, so re-rendering is idempotent and the output constant. -/
theorem c7_render_idempotent (u v : Unit) :
    Home u = Home v ∧ Home u = homeTree :=
  ⟨rfl, rfl⟩

/-- Claim C8 counterexample: the single image invocation in `Home` is not
made with exactly the four claimed props (asset path, alt text, fill,
priority); it additionally passes a non-empty list of styling class
tokens through `className`. -/
theorem c8_counterexample :
    imagesOf homeTree = [heroImageProps] ∧ heroImageProps.className ≠ [] :=
  ⟨rfl, by decide⟩

/-- Claim C8 (amended): the image collaborator is invoked exactly once, with
the asset path `/bg.jpg`, alt text `background`, the fill-the-container
sizing instruction, the eager/priority load hint set, and additionally
the styling class tokens `object-cover opacity-30 blur-[2px]`. -/
theorem c8_image_invocation :
    imagesOf homeTree = [heroImageProps] ∧
    heroImageProps.src = "/bg.jpg" ∧
    heroImageProps.alt = "background" ∧
    heroImageProps.fill = true ∧
    heroImageProps.priority = true ∧
    heroImageProps.className = ["object-cover", "opacity-30", "blur-[2px]"] :=
  ⟨rfl, rfl, rfl, rfl, rfl, rfl⟩

/-- Claim C9: the image and the gradient share the single absolutely
positioned `-z-10` wrapper as their common parent (their ancestor chains
are both root, hero section, wrapper); the wrapper is positioned with
z-index −10 and forms a stacking context; the hero container carries the
`bg-foreground` background token and does not establish a stacking
context; and consequently both the image and the gradient paint below
the hero container's background layer. -/
theorem c9_stack_behind_hero_background :
    pathTo isImgNode homeTree = some [homeTree, heroSection, layerWrapper] ∧
    pathTo isGradientNode homeTree = some [homeTree, heroSection, layerWrapper] ∧
    childrenOf layerWrapper = [heroImage, gradientOverlay] ∧
    isPositioned layerWrapper = true ∧
    hasClass layerWrapper "absolute" = true ∧
    zVal layerWrapper = -10 ∧
    createsStackingContext layerWrapper = true ∧
    hasClass heroSection "bg-foreground" = true ∧
    createsStackingContext heroSection = false ∧
    paintIdx isImgNode < paintIdx isHeroBgNode ∧
    paintIdx isGradientNode < paintIdx isHeroBgNode :=
  ⟨rfl, rfl, rfl, by decide, by decide, by decide, by decide, by decide, by decide,
   by decide, by decide⟩

/-- Claim C10: every render yields the fixed constant tree, whose text
content in document order is exactly the hero heading `Start creating.`,
the subheading, then the two scroll sections' fixed copy, and whose only
image is `/bg.jpg` with alt text `background`. -/
theorem c10_constant_content (u : Unit) :
    Home u = homeTree ∧
    textsOf (Home u) =
      ["Start creating.",
       "Transform Hours of Footage into Minutes of Magic.",
       "Create short videos from long ones in a single click",
       "A tool that can create short videos from long ones before you can say ",
       "Adabra Kadabra",
       "Built to work the way humans do",
       "Autocut\x27s multi-pass system utilizes Whisper model and Diarization for ",
       "seamless",
       " video editing."] ∧
    imagesOf (Home u) = [heroImageProps] ∧
    heroImageProps.src = "/bg.jpg" ∧
    heroImageProps.alt = "background" ∧
    childrenOf (Home u) = [.navbar, heroSection, scrollSections] :=
  ⟨rfl, rfl, rfl, rfl, rfl, rfl⟩

end Autocut
